import Mathlib

/-!
# Shallow embedding of the firewall-defense simulation core

This file embeds the deterministic tick-based simulation core of the
`firewall-defense-agentic-gaming` repository (src/core/constants.py,
grid.py, walls.py, cooldowns.py, enemies.py, collision.py, simulation.py)
and proves the specification claims about it.

Modelling conventions:
* numpy integer dtypes are modelled as `Nat`; every operation that could
  underflow in the source (`uint8` wall HP minus damage, `uint16` cooldown
  decrement) is performed in the source with an explicit guard or widening,
  which corresponds exactly to truncated `Nat` subtraction / guarded
  decrement here.
* 2-D `(9, 13)` numpy arrays are modelled as functions `Fin 9 → Fin 13 → _`;
  the fixed-size `(20,)` enemy arrays are modelled as length-20 lists.
* numpy integer "fancy" indexing `wall_armed[cell_y, x]` raises on an index
  `≥ 9`; the total model returns `false` there (`armedAt`), so theorems about
  runs are only claimed on prefixes where every lookup is in bounds.
* the numpy `PCG64` generator owned by the simulation is external library
  state; it is modelled as a pre-determined stream of draws together with a
  position, `integers(0, WIDTH)` returning `stream pos % WIDTH` and advancing
  the position.  `np.random.default_rng` is a pure function of the seed, so
  equal seeds yield equal streams.
-/

namespace FirewallDefense

/-! ## Constants (src/core/constants.py) -/

def WIDTH : Nat := 13
def HEIGHT : Nat := 9
def CORE_Y_HALF : Nat := 16
def MAX_ENEMIES : Nat := 20
def ENEMY_SPEED_HALF : Nat := 1
def GCD_FRAMES : Nat := 10
def CELL_CD_FRAMES : Nat := 150
def DEFAULT_SPAWN_INTERVAL : Nat := 30
def MAX_EPISODE_TICKS : Nat := 1000
def NUM_ACTIONS : Nat := 118
def NO_OP_ACTION : Nat := 0
def DEFAULT_WALL_HP : Nat := 1
def ENEMY_TYPE_DROP : Nat := 0
def EMPTY : Nat := 0
def WALL : Nat := 1
def U32_MAX : Nat := 4294967295

def REWARD_CORE_BREACH : Int := -1
def REWARD_ENEMY_KILLED : Int := 1
def REWARD_TICK_SURVIVED : Int := 0

/-! ## Grid state (src/core/grid.py) -/

structure GridState where
  grid : Fin 9 → Fin 13 → Nat
  wall_hp : Fin 9 → Fin 13 → Nat
  wall_armed : Fin 9 → Fin 13 → Bool
  wall_pending : Fin 9 → Fin 13 → Bool
  cell_cd : Fin 9 → Fin 13 → Nat
  gcd : Nat
deriving DecidableEq

def create_grid_state : GridState :=
  { grid := fun _ _ => 0
    wall_hp := fun _ _ => 0
    wall_armed := fun _ _ => false
    wall_pending := fun _ _ => false
    cell_cd := fun _ _ => 0
    gcd := 0 }

/-- Pointwise update of a single cell of a 2-D array. -/
def setCell (f : Fin 9 → Fin 13 → α) (y : Fin 9) (x : Fin 13) (v : α) :
    Fin 9 → Fin 13 → α :=
  fun i j => if i = y ∧ j = x then v else f i j

/-- Total read of a 2-D array at `Nat` coordinates (out of range: default). -/
def cellGet (f : Fin 9 → Fin 13 → α) (d : α) (cy cx : Nat) : α :=
  if h : cy < 9 ∧ cx < 13 then f ⟨cy, h.1⟩ ⟨cx, h.2⟩ else d

/-! ## Wall operations (src/core/walls.py) -/

/-- `place_wall(state, y, x)`: bounds, gcd, cell cooldown and occupancy are
checked in this order; any failure returns `false` with the state untouched;
success writes the wall cell and returns `true`. -/
def place_wall (s : GridState) (y x : Int) : Bool × GridState :=
  if h : 0 ≤ y ∧ y < 9 ∧ 0 ≤ x ∧ x < 13 then
    let yF : Fin 9 := ⟨y.toNat, by omega⟩
    let xF : Fin 13 := ⟨x.toNat, by omega⟩
    if s.gcd ≠ 0 then (false, s)
    else if s.cell_cd yF xF ≠ 0 then (false, s)
    else if s.grid yF xF = WALL then (false, s)
    else
      (true,
        { s with
          grid := setCell s.grid yF xF WALL
          wall_hp := setCell s.wall_hp yF xF DEFAULT_WALL_HP
          wall_pending := setCell s.wall_pending yF xF true
          wall_armed := setCell s.wall_armed yF xF false })
  else (false, s)

/-- `arm_pending_walls`: `wall_armed ← wall_armed ∨ wall_pending`,
`wall_pending ← false`, vectorized over the grid. -/
def arm_pending_walls (s : GridState) : GridState :=
  { s with
    wall_armed := fun i j => s.wall_armed i j || s.wall_pending i j
    wall_pending := fun _ _ => false }

/-! ## Cooldowns (src/core/cooldowns.py) -/

/-- `apply_cooldowns(state, y, x)`: `gcd ← GCD_FRAMES`,
`cell_cd[y,x] ← CELL_CD_FRAMES`.  Called by the orchestrator only with the
in-bounds coordinates of a successful placement. -/
def apply_cooldowns (s : GridState) (y x : Int) : GridState :=
  if h : 0 ≤ y ∧ y < 9 ∧ 0 ≤ x ∧ x < 13 then
    { s with
      gcd := GCD_FRAMES
      cell_cd := setCell s.cell_cd ⟨y.toNat, by omega⟩ ⟨x.toNat, by omega⟩ CELL_CD_FRAMES }
  else { s with gcd := GCD_FRAMES }

/-- `tick_cooldowns`: saturating decrement of `gcd` and every `cell_cd` entry
(the source guards with `if > 0` / `np.where` to avoid uint16 wrap-around). -/
def tick_cooldowns (s : GridState) : GridState :=
  { s with
    gcd := if s.gcd > 0 then s.gcd - 1 else s.gcd
    cell_cd := fun i j => if s.cell_cd i j > 0 then s.cell_cd i j - 1 else 0 }

/-! ## Random generator model

Modelled from the spec: the simulation's seeded numpy generator
(`np.random.default_rng(seed)`, an external library object not part of this
repository's sources) is an abstract pre-determined stream of draws;
`integers(0, WIDTH)` returns the next value of the stream reduced mod `WIDTH`
and advances the position.  `default_rng` is a pure function of the seed, so
two constructions from equal seeds yield equal `Rng` values. -/

structure Rng where
  stream : Nat → Nat
  pos : Nat

/-- One draw of `rng.integers(0, WIDTH)`. -/
def rngNext (r : Rng) : Nat × Rng :=
  (r.stream r.pos % WIDTH, ⟨r.stream, r.pos + 1⟩)

/-! ## Enemy state (src/core/enemies.py) -/

structure EnemyState where
  enemy_y_half : List Nat
  enemy_x : List Nat
  enemy_alive : List Bool
  enemy_type : List Nat
  enemy_spawn_tick : List Nat
deriving DecidableEq

/-- All five slot arrays have the fixed numpy shape `(MAX_ENEMIES,)`. -/
def EnemyState.wf (e : EnemyState) : Prop :=
  e.enemy_y_half.length = MAX_ENEMIES ∧
  e.enemy_x.length = MAX_ENEMIES ∧
  e.enemy_alive.length = MAX_ENEMIES ∧
  e.enemy_type.length = MAX_ENEMIES ∧
  e.enemy_spawn_tick.length = MAX_ENEMIES

instance (e : EnemyState) : Decidable e.wf := by
  unfold EnemyState.wf; infer_instance

def create_enemy_state : EnemyState :=
  { enemy_y_half := List.replicate MAX_ENEMIES 0
    enemy_x := List.replicate MAX_ENEMIES 0
    enemy_alive := List.replicate MAX_ENEMIES false
    enemy_type := List.replicate MAX_ENEMIES 0
    enemy_spawn_tick := List.replicate MAX_ENEMIES 0 }

/-- `spawn_enemy(state, current_tick, rng)`: the first dead slot
(`np.argmax(~alive)`, re-checked to be dead) receives a fresh Drop enemy
whose column is drawn from the generator; a full pool returns `false`
without mutating the arrays or the generator. -/
def spawn_enemy (e : EnemyState) (current_tick : Nat) (r : Rng) :
    Bool × EnemyState × Rng :=
  match e.enemy_alive.findIdx? (fun a => !a) with
  | none => (false, e, r)
  | some slot =>
    let d := rngNext r
    (true,
      { enemy_y_half := e.enemy_y_half.set slot 0
        enemy_x := e.enemy_x.set slot d.1
        enemy_alive := e.enemy_alive.set slot true
        enemy_type := e.enemy_type.set slot ENEMY_TYPE_DROP
        enemy_spawn_tick := e.enemy_spawn_tick.set slot current_tick },
      d.2)

/-- `move_enemies`: `enemy_y_half[alive] += ENEMY_SPEED_HALF`. -/
def move_enemies (e : EnemyState) : EnemyState :=
  { e with
    enemy_y_half :=
      List.zipWith (fun y a => if a then y + ENEMY_SPEED_HALF else y)
        e.enemy_y_half e.enemy_alive }

/-! ## Compaction (src/core/enemies.py, compact_enemies) -/

/-- Sort key of slot `i`: `spawn_tick` for alive slots, `2^32 - 1` for dead
slots (`np.where(alive, spawn_tick, np.iinfo(np.uint32).max)`). -/
def sortKey (alive : List Bool) (st : List Nat) (i : Nat) : Nat :=
  if alive.getD i false then st.getD i 0 else U32_MAX

/-- The comparison realised by the stable `np.argsort` of the key array:
keys ascending, ties broken by the original index.  This lexicographic
comparison is a linear order on slot indices (no ties are possible), so the
stable argsort is its unique sorted permutation. -/
def compactLE (alive : List Bool) (st : List Nat) (i j : Nat) : Prop :=
  sortKey alive st i < sortKey alive st j ∨
    (sortKey alive st i = sortKey alive st j ∧ i ≤ j)

instance (alive : List Bool) (st : List Nat) :
    DecidableRel (compactLE alive st) := by
  unfold compactLE; infer_instance

/-- `np.argsort(sort_key, kind="stable")` over the 20 slot indices. -/
def sort_indices (alive : List Bool) (st : List Nat) : List Nat :=
  (List.range MAX_ENEMIES).insertionSort (compactLE alive st)

/-- Zero-pad every position from `k` on (`arr[alive_count:] = z`). -/
def padFrom (l : List α) (k : Nat) (z : α) : List α :=
  l.take k ++ List.replicate (l.length - k) z

/-- `compact_enemies`: apply the stable argsort permutation to all five
arrays, count the alive slots, zero the trailing slots, return the count. -/
def compact_enemies (e : EnemyState) : Nat × EnemyState :=
  let idx := sort_indices e.enemy_alive e.enemy_spawn_tick
  let y' := idx.map (fun i => e.enemy_y_half.getD i 0)
  let x' := idx.map (fun i => e.enemy_x.getD i 0)
  let alive' := idx.map (fun i => e.enemy_alive.getD i false)
  let ty' := idx.map (fun i => e.enemy_type.getD i 0)
  let st' := idx.map (fun i => e.enemy_spawn_tick.getD i 0)
  let alive_count := alive'.count true
  (alive_count,
    { enemy_y_half := padFrom y' alive_count 0
      enemy_x := padFrom x' alive_count 0
      enemy_alive := padFrom alive' alive_count false
      enemy_type := padFrom ty' alive_count 0
      enemy_spawn_tick := padFrom st' alive_count 0 })

/-! ## Collision pipeline (src/core/collision.py) -/

/-- Cell row of a half-cell position: `cell_y = y_half // 2`. -/
def cellY (y_half : Nat) : Nat := y_half / 2

/-- Total model of the fancy-indexed read `wall_armed[cell_y, x]`
(numpy raises an `IndexError` for an index `≥` the axis size; the total
model answers `false`, so enemies outside the grid never collide). -/
def armedAt (s : GridState) (cy cx : Nat) : Bool :=
  if h : cy < 9 ∧ cx < 13 then s.wall_armed ⟨cy, h.1⟩ ⟨cx, h.2⟩ else false

/-- `detect_collisions`: slot `i` collides iff it is alive and its cell has
an armed wall. -/
def detect_collisions (g : GridState) (e : EnemyState) : List Bool :=
  (List.range MAX_ENEMIES).map fun i =>
    armedAt g (cellY (e.enemy_y_half.getD i 0)) (e.enemy_x.getD i 0) &&
      e.enemy_alive.getD i false

/-- Damage accumulated on cell `(cy, cx)`: number of masked enemies whose
cell is `(cy, cx)` (`np.add.at(damage, (colliding_cell_y, colliding_x), 1)`). -/
def damageAt (e : EnemyState) (mask : List Bool) (cy : Fin 9) (cx : Fin 13) : Nat :=
  (List.range MAX_ENEMIES).countP fun i =>
    mask.getD i false &&
      (cellY (e.enemy_y_half.getD i 0) == cy.val) &&
      (e.enemy_x.getD i 0 == cx.val)

/-- A cell is destroyed iff it took damage at least equal to its HP
(`destroyed = (damage > 0) & (damage >= wall_hp)`). -/
def destroyedAt (g : GridState) (e : EnemyState) (mask : List Bool)
    (cy : Fin 9) (cx : Fin 13) : Bool :=
  decide (0 < damageAt e mask cy cx ∧ g.wall_hp cy cx ≤ damageAt e mask cy cx)

/-- Mark every masked enemy dead (`enemy_alive[collisions] = False`). -/
def killMasked (e : EnemyState) (mask : List Bool) : EnemyState :=
  { e with
    enemy_alive := List.zipWith (fun a m => a && !m) e.enemy_alive mask }

/-- `resolve_collisions`: mark masked enemies dead, accumulate per-cell
damage, clear destroyed walls, write back the surviving HP
(`max(hp - damage, 0)`, computed in the source in a signed wide type and
here as truncated `Nat` subtraction); returns `(enemies_killed,
walls_destroyed)`.  When no enemy is masked the source returns early with
`(0, 0)` and the grid untouched. -/
def resolve_collisions (g : GridState) (e : EnemyState) (mask : List Bool) :
    (Nat × Nat) × GridState × EnemyState :=
  let e' := killMasked e mask
  let enemies_killed := mask.count true
  if enemies_killed = 0 then ((0, 0), g, e')
  else
    let destroyed := fun cy cx => destroyedAt g e' mask cy cx
    let walls_destroyed :=
      ((List.finRange 9).map fun cy =>
        (List.finRange 13).countP fun cx => destroyed cy cx).sum
    let g' := { g with
      grid := fun i j => if destroyed i j then EMPTY else g.grid i j
      wall_hp := fun i j =>
        if destroyed i j then 0 else g.wall_hp i j - damageAt e' mask i j
      wall_armed := fun i j => if destroyed i j then false else g.wall_armed i j
      wall_pending := fun i j => if destroyed i j then false else g.wall_pending i j }
    ((enemies_killed, walls_destroyed), g', e')

/-- `detect_core_breach`: some alive enemy has `y_half ≥ CORE_Y_HALF`. -/
def detect_core_breach (e : EnemyState) : Bool :=
  (List.range MAX_ENEMIES).any fun i =>
    e.enemy_alive.getD i false &&
      decide (CORE_Y_HALF ≤ e.enemy_y_half.getD i 0)

/-! ## Simulation state and step (src/core/simulation.py) -/

structure SimulationState where
  grid_state : GridState
  enemy_state : EnemyState
  tick : Nat
  spawn_interval : Nat
  rng : Rng

/-- `create_simulation_state(spawn_interval, seed)`: zeroed grid and enemy
arrays, tick 0, and the generator produced (purely) from the seed. -/
def create_simulation_state (spawn_interval : Nat) (rng : Rng) : SimulationState :=
  { grid_state := create_grid_state
    enemy_state := create_enemy_state
    tick := 0
    spawn_interval := spawn_interval
    rng := rng }

/-- Phases 1-2 of the step: cooldown decrement, then arming. -/
def phase2Grid (s : SimulationState) : GridState :=
  arm_pending_walls (tick_cooldowns s.grid_state)

/-- The cell written by the action phase, when the placement succeeds. -/
def placedCell (s : SimulationState) (action : Nat) : Option (Nat × Nat) :=
  if action ≠ NO_OP_ACTION ∧ (phase2Grid s).gcd = 0 ∧
      (place_wall (phase2Grid s) ((action - 1) / WIDTH) ((action - 1) % WIDTH)).1 = true
  then some ((action - 1) / WIDTH, (action - 1) % WIDTH)
  else none

/-- Phase 3 of the step: decode the action and attempt the placement; a
successful placement is followed by `apply_cooldowns`. -/
def phase3Grid (s : SimulationState) (action : Nat) : GridState :=
  if action ≠ NO_OP_ACTION ∧ (phase2Grid s).gcd = 0 then
    let y : Int := (action - 1) / WIDTH
    let x : Int := (action - 1) % WIDTH
    let pr := place_wall (phase2Grid s) y x
    if pr.1 then apply_cooldowns pr.2 y x else pr.2
  else phase2Grid s

/-- Phase 4 of the step: enemy movement. -/
def phase4Enemies (s : SimulationState) : EnemyState :=
  move_enemies s.enemy_state

/-- Phase 5a of the step: the collision mask. -/
def stepMask (s : SimulationState) (action : Nat) : List Bool :=
  detect_collisions (phase3Grid s action) (phase4Enemies s)

/-- `step(sim_state, action)`: the fixed 12-phase tick; returns the next
state and the `(reward, terminated, truncated)` tuple. -/
def step (s : SimulationState) (action : Nat) :
    SimulationState × (Int × Bool × Bool) :=
  let g3 := phase3Grid s action
  let e1 := phase4Enemies s
  let mask := stepMask s action
  let res := resolve_collisions g3 e1 mask
  let enemies_killed := res.1.1
  let g4 := res.2.1
  let e2 := res.2.2
  let breached := detect_core_breach e2
  let e3 :=
    if 0 < s.spawn_interval ∧ s.tick % s.spawn_interval = 0 then
      (spawn_enemy e2 s.tick s.rng).2.1
    else e2
  let rng' :=
    if 0 < s.spawn_interval ∧ s.tick % s.spawn_interval = 0 then
      (spawn_enemy e2 s.tick s.rng).2.2
    else s.rng
  let e4 := (compact_enemies e3).2
  let reward : Int :=
    (enemies_killed : Int) * REWARD_ENEMY_KILLED + REWARD_TICK_SURVIVED +
      (if breached then REWARD_CORE_BREACH else 0)
  let tick' := s.tick + 1
  ({ grid_state := g4
     enemy_state := e4
     tick := tick'
     spawn_interval := s.spawn_interval
     rng := rng' },
   (reward, breached, decide (MAX_EPISODE_TICKS ≤ tick')))

/-- State after stepping through a list of actions. -/
def runSteps (s : SimulationState) : List Nat → SimulationState
  | [] => s
  | a :: as => runSteps (step s a).1 as

/-- The `(reward, terminated, truncated)` tuples returned along a run. -/
def runOutputs (s : SimulationState) : List Nat → List (Int × Bool × Bool)
  | [] => []
  | a :: as => (step s a).2 :: runOutputs (step s a).1 as

/-! ## Claim C8: the `place_wall` contract -/

/-- Characterization of `place_wall`: success is the conjunction of the four
validity predicates, `gcd` and `cell_cd` are never modified, and the four
wall arrays change exactly at the placed cell, exactly on success. -/
lemma place_wall_char (g : GridState) (y x : Int) :
    ((place_wall g y x).1 = true ↔
      (0 ≤ y ∧ y < 9 ∧ 0 ≤ x ∧ x < 13) ∧ g.gcd = 0 ∧
        cellGet g.cell_cd 0 y.toNat x.toNat = 0 ∧
        cellGet g.grid 0 y.toNat x.toNat ≠ WALL) ∧
    (place_wall g y x).2.gcd = g.gcd ∧
    (place_wall g y x).2.cell_cd = g.cell_cd ∧
    (∀ (i : Fin 9) (j : Fin 13),
      ((place_wall g y x).2.grid i j =
        if (place_wall g y x).1 = true ∧ (i : Nat) = y.toNat ∧ (j : Nat) = x.toNat
        then WALL else g.grid i j) ∧
      ((place_wall g y x).2.wall_hp i j =
        if (place_wall g y x).1 = true ∧ (i : Nat) = y.toNat ∧ (j : Nat) = x.toNat
        then DEFAULT_WALL_HP else g.wall_hp i j) ∧
      ((place_wall g y x).2.wall_pending i j =
        if (place_wall g y x).1 = true ∧ (i : Nat) = y.toNat ∧ (j : Nat) = x.toNat
        then true else g.wall_pending i j) ∧
      ((place_wall g y x).2.wall_armed i j =
        if (place_wall g y x).1 = true ∧ (i : Nat) = y.toNat ∧ (j : Nat) = x.toNat
        then false else g.wall_armed i j)) := by
  refine ⟨?_, ?_, ?_, fun i j => ⟨?_, ?_, ?_, ?_⟩⟩ <;>
    simp only [place_wall, cellGet] <;>
    split_ifs <;>
    simp_all [setCell, Fin.ext_iff] <;>
    omega

/-- **C8.** `place_wall(y, x)` succeeds exactly when the four validity
predicates (bounds, `gcd = 0`, `cell_cd[y,x] = 0`, cell unoccupied) hold —
the source checks them in this order, so the conjunction is the observable
outcome; on failure no field changes; on success exactly the four wall
arrays change at `(y, x)`, and `gcd` and `cell_cd` are never modified. -/
theorem place_wall_spec (g : GridState) (y x : Int) :
    ((place_wall g y x).1 = true ↔
      (0 ≤ y ∧ y < 9 ∧ 0 ≤ x ∧ x < 13) ∧ g.gcd = 0 ∧
        cellGet g.cell_cd 0 y.toNat x.toNat = 0 ∧
        cellGet g.grid 0 y.toNat x.toNat ≠ WALL) ∧
    (place_wall g y x).2.gcd = g.gcd ∧
    (place_wall g y x).2.cell_cd = g.cell_cd ∧
    (∀ (i : Fin 9) (j : Fin 13),
      ((place_wall g y x).2.grid i j =
        if (place_wall g y x).1 = true ∧ (i : Nat) = y.toNat ∧ (j : Nat) = x.toNat
        then WALL else g.grid i j) ∧
      ((place_wall g y x).2.wall_hp i j =
        if (place_wall g y x).1 = true ∧ (i : Nat) = y.toNat ∧ (j : Nat) = x.toNat
        then DEFAULT_WALL_HP else g.wall_hp i j) ∧
      ((place_wall g y x).2.wall_pending i j =
        if (place_wall g y x).1 = true ∧ (i : Nat) = y.toNat ∧ (j : Nat) = x.toNat
        then true else g.wall_pending i j) ∧
      ((place_wall g y x).2.wall_armed i j =
        if (place_wall g y x).1 = true ∧ (i : Nat) = y.toNat ∧ (j : Nat) = x.toNat
        then false else g.wall_armed i j)) :=
  place_wall_char g y x

/-- A concrete generator used to instantiate theorems: the constant-zero
draw stream at position 0. -/
def rngZero : Rng := ⟨fun _ => 0, 0⟩

/-- A concrete all-alive enemy pool. -/
def fullPool : EnemyState :=
  { enemy_y_half := List.replicate MAX_ENEMIES 3
    enemy_x := List.replicate MAX_ENEMIES 4
    enemy_alive := List.replicate MAX_ENEMIES true
    enemy_type := List.replicate MAX_ENEMIES 0
    enemy_spawn_tick := List.replicate MAX_ENEMIES 0 }

/-! ## Claim C10: spawning on a full pool is a complete no-op -/

/-- **C10.** When all `MAX_ENEMIES` slots are alive, `spawn_enemy` returns
`false`, leaves all five enemy arrays untouched, and does not draw from the
generator: the argmax-selected slot is re-checked to be dead before any
mutation, and `rng.integers` is only reached on the success path. -/
theorem spawn_enemy_full_pool (e : EnemyState) (t : Nat) (r : Rng)
    (h : e.enemy_alive = List.replicate MAX_ENEMIES true) :
    spawn_enemy e t r = (false, e, r) := by
  have hf : e.enemy_alive.findIdx? (fun a => !a) = none := by
    rw [h]; rfl
  simp only [spawn_enemy, hf]

/-- Witness for C10 at a concrete all-alive pool. -/
theorem spawn_enemy_full_pool_witness :
    fullPool.enemy_alive = List.replicate MAX_ENEMIES true ∧
      spawn_enemy fullPool 7 rngZero = (false, fullPool, rngZero) :=
  ⟨rfl, spawn_enemy_full_pool fullPool 7 rngZero rfl⟩

/-! ## Claim C1: determinism of trajectories -/

/-- **C1.** Two simulations created with equal seeds (hence equal generator
streams, `np.random.default_rng` being a pure function of the seed) and
equal spawn intervals, stepped through the same in-range action sequence,
agree on the full state after every step and on every returned
`(reward, terminated, truncated)` tuple. -/
theorem step_determinism (r1 r2 : Rng) (si1 si2 : Nat) (acts : List Nat)
    (hacts : ∀ a ∈ acts, a < NUM_ACTIONS) (hr : r1 = r2) (hsi : si1 = si2) :
    (∀ n, runSteps (create_simulation_state si1 r1) (acts.take n) =
      runSteps (create_simulation_state si2 r2) (acts.take n)) ∧
    runOutputs (create_simulation_state si1 r1) acts =
      runOutputs (create_simulation_state si2 r2) acts := by
  subst hr; subst hsi; exact ⟨fun _ => rfl, rfl⟩

/-- Witness for C1 on a concrete seed stream and action sequence. -/
theorem step_determinism_witness :
    runOutputs (create_simulation_state 30 rngZero) [0, 59, 0] =
      runOutputs (create_simulation_state 30 rngZero) [0, 59, 0] :=
  (step_determinism rngZero rngZero 30 30 [0, 59, 0] (by decide) rfl rfl).2

/-! ## Claim C5: the returned reward and episode flags -/

/-- Phase 5b of the step, as a standalone definition. -/
def stepResolve (s : SimulationState) (a : Nat) :
    (Nat × Nat) × GridState × EnemyState :=
  resolve_collisions (phase3Grid s a) (phase4Enemies s) (stepMask s a)

/-- The number of enemies killed during a step. -/
def stepKilled (s : SimulationState) (a : Nat) : Nat := (stepResolve s a).1.1

/-- Whether a core breach is detected during a step (phase 6, checked on
the post-collision enemy state). -/
def stepBreached (s : SimulationState) (a : Nat) : Bool :=
  detect_core_breach (stepResolve s a).2.2

/-- **C5.** Every step returns
`reward = killed · (+1) + 0 + (breached ? −1 : 0)`,
`terminated` iff a breach was detected this tick, and `truncated` iff the
post-increment tick counter has reached `MAX_EPISODE_TICKS`. -/
theorem step_reward_and_flags (s : SimulationState) (a : Nat) :
    (step s a).2.1 = (stepKilled s a : Int) * REWARD_ENEMY_KILLED +
      REWARD_TICK_SURVIVED +
      (if stepBreached s a = true then REWARD_CORE_BREACH else 0) ∧
    ((step s a).2.2.1 = true ↔ stepBreached s a = true) ∧
    ((step s a).2.2.2 = true ↔ MAX_EPISODE_TICKS ≤ (step s a).1.tick) ∧
    (step s a).1.tick = s.tick + 1 := by
  refine ⟨rfl, Iff.rfl, ?_, rfl⟩
  simp only [step, decide_eq_true_eq]

/-! ## Claim C2: the global-cooldown window after a placement -/

lemma resolve_collisions_gcd (g : GridState) (e : EnemyState) (mask : List Bool) :
    (resolve_collisions g e mask).2.1.gcd = g.gcd := by
  simp only [resolve_collisions]
  split <;> rfl

lemma phase2Grid_gcd (s : SimulationState) :
    (phase2Grid s).gcd =
      if 0 < s.grid_state.gcd then s.grid_state.gcd - 1 else s.grid_state.gcd := rfl

lemma phase3Grid_blocked (s : SimulationState) (a : Nat)
    (h : (phase2Grid s).gcd ≠ 0) : phase3Grid s a = phase2Grid s := by
  unfold phase3Grid
  exact if_neg (fun hc => h hc.2)

lemma step_grid_state (s : SimulationState) (a : Nat) :
    (step s a).1.grid_state = (stepResolve s a).2.1 := rfl

lemma step_gcd_blocked (s : SimulationState) (a : Nat)
    (h : (phase2Grid s).gcd ≠ 0) :
    (step s a).1.grid_state.gcd = (phase2Grid s).gcd := by
  rw [step_grid_state, stepResolve, resolve_collisions_gcd, phase3Grid_blocked s a h]

/-- While the global cooldown exceeds the number of remaining steps, each
step only decrements it (a blocked action phase can never reset it). -/
lemma runSteps_gcd_countdown : ∀ (acts : List Nat) (s : SimulationState),
    acts.length < s.grid_state.gcd →
    (runSteps s acts).grid_state.gcd = s.grid_state.gcd - acts.length := by
  intro acts
  induction acts with
  | nil => intro s _; rfl
  | cons a as ih =>
    intro s h
    simp only [List.length_cons] at h
    have hg : 0 < s.grid_state.gcd := by omega
    have h2 : (phase2Grid s).gcd = s.grid_state.gcd - 1 := by
      rw [phase2Grid_gcd, if_pos hg]
    have hnz : (phase2Grid s).gcd ≠ 0 := by omega
    have hstep : (step s a).1.grid_state.gcd = s.grid_state.gcd - 1 :=
      (step_gcd_blocked s a hnz).trans h2
    show (runSteps (step s a).1 as).grid_state.gcd = _
    rw [ih (step s a).1 (by omega), hstep]
    simp only [List.length_cons]
    omega

set_option maxRecDepth 400000 in
/-- **C2 (counterexample).** From a fresh simulation, action 1 places a wall
at `(0, 0)` on tick 0 (so `gcd` becomes 10); placement attempts at `(0, 1)`
(action 2) on ticks 1 through 9 are all ignored, but the attempt on tick
`t + 10 = 10` **succeeds** — contradicting the claim that ticks `t+1`
through `t+10` ignore placements and `t+11` is the first legal tick. -/
theorem gcd_gate_counterexample :
    placedCell (create_simulation_state 0 rngZero) 1 = some (0, 0) ∧
    (runSteps (create_simulation_state 0 rngZero)
      (1 :: List.replicate 9 2)).grid_state.grid 0 1 = EMPTY ∧
    (runSteps (create_simulation_state 0 rngZero)
      (1 :: List.replicate 10 2)).grid_state.grid 0 1 = WALL := by
  refine ⟨by decide, ?_, ?_⟩
  · decide
  · decide

/-- **C2 (amended).** If a placement succeeded on tick `t` (leaving
`gcd = GCD_FRAMES = 10` in the post-step state `s`), then for the next `k ≤ 9`
steps the cooldown reads `10 - k`; on ticks `t+1 … t+9` the action phase sees
a non-zero cooldown and ignores any placement action, and on tick `t+10` the
action phase sees `gcd = 0` again, making it the first tick on which a
placement can succeed. -/
theorem gcd_gate (s : SimulationState) (acts : List Nat)
    (h : s.grid_state.gcd = GCD_FRAMES) (hlen : acts.length ≤ 9) :
    (runSteps s acts).grid_state.gcd = GCD_FRAMES - acts.length ∧
    (acts.length < 9 → ∀ a,
      (phase2Grid (runSteps s acts)).gcd ≠ 0 ∧
      phase3Grid (runSteps s acts) a = phase2Grid (runSteps s acts)) ∧
    (acts.length = 9 → (phase2Grid (runSteps s acts)).gcd = 0) := by
  have hrun : (runSteps s acts).grid_state.gcd = GCD_FRAMES - acts.length := by
    rw [runSteps_gcd_countdown acts s (by rw [h]; unfold GCD_FRAMES; omega), h]
  refine ⟨hrun, fun hlt a => ?_, fun heq => ?_⟩
  · have hnz : (phase2Grid (runSteps s acts)).gcd ≠ 0 := by
      rw [phase2Grid_gcd, hrun]
      unfold GCD_FRAMES
      unfold GCD_FRAMES at hrun
      split <;> omega
    exact ⟨hnz, phase3Grid_blocked _ a hnz⟩
  · rw [phase2Grid_gcd, hrun, heq]
    rfl

/-- A concrete post-placement state: fresh simulation whose `gcd` was just
set to `GCD_FRAMES`. -/
def gcdTenState : SimulationState :=
  { grid_state := { create_grid_state with gcd := GCD_FRAMES }
    enemy_state := create_enemy_state
    tick := 1
    spawn_interval := 0
    rng := rngZero }

/-- Witness for C2 (amended) at a concrete post-placement state. -/
theorem gcd_gate_witness :
    (phase2Grid (runSteps gcdTenState (List.replicate 9 0))).gcd = 0 :=
  (gcd_gate gcdTenState (List.replicate 9 0) rfl (by decide)).2.2 (by decide)

/-! ## Claim C4: a wall placed on tick t cannot kill on tick t -/

lemma apply_cooldowns_wall_armed (g : GridState) (y x : Int) :
    (apply_cooldowns g y x).wall_armed = g.wall_armed := by
  unfold apply_cooldowns
  split <;> rfl

lemma getD_map_range (n : Nat) (f : Nat → α) (i : Nat) (d : α) :
    ((List.range n).map f).getD i d = if i < n then f i else d := by
  by_cases h : i < n
  · rw [List.getD_eq_getElem _ d (by simpa using h), List.getElem_map,
      List.getElem_range, if_pos h]
  · rw [List.getD_eq_default _ d (by simpa using h), if_neg h]

lemma placedCell_eq (s : SimulationState) (a y x : Nat)
    (hp : placedCell s a = some (y, x)) :
    a ≠ NO_OP_ACTION ∧ (phase2Grid s).gcd = 0 ∧
    (place_wall (phase2Grid s) ((a - 1) / WIDTH) ((a - 1) % WIDTH)).1 = true ∧
    y = (a - 1) / WIDTH ∧ x = (a - 1) % WIDTH := by
  unfold placedCell at hp
  split at hp
  · next hC =>
    simp only [Option.some.injEq, Prod.mk.injEq] at hp
    exact ⟨hC.1, hC.2.1, hC.2.2, hp.1.symm, hp.2.symm⟩
  · exact absurd hp (by simp)

lemma phase3Grid_placed (s : SimulationState) (a : Nat)
    (h1 : a ≠ NO_OP_ACTION) (h2 : (phase2Grid s).gcd = 0)
    (hs : (place_wall (phase2Grid s) ((a - 1) / WIDTH) ((a - 1) % WIDTH)).1 = true) :
    phase3Grid s a =
      apply_cooldowns
        (place_wall (phase2Grid s) ((a - 1) / WIDTH) ((a - 1) % WIDTH)).2
        ((a - 1) / WIDTH) ((a - 1) % WIDTH) := by
  unfold phase3Grid
  rw [if_pos ⟨h1, h2⟩]
  simp only [hs, if_true]

/-- **C4.** If the action phase of a step places a wall at `(y, x)`, then no
enemy masked by that step's collision detection sits on cell `(y, x)`, and
every masked enemy sits on a cell whose `wall_armed` flag was already set on
entry to the action phase (hence on entry to the collision phase): collision
detection consults only `wall_armed`, `place_wall` leaves the new wall
pending and unarmed, and arming ran before the action phase.  Consequently
the wall placed this tick never contributes to `enemies_killed`. -/
theorem placed_wall_no_same_tick_kill (s : SimulationState) (a y x : Nat)
    (hp : placedCell s a = some (y, x)) :
    ∀ i, (stepMask s a).getD i false = true →
      ¬(cellY ((phase4Enemies s).enemy_y_half.getD i 0) = y ∧
        (phase4Enemies s).enemy_x.getD i 0 = x) ∧
      armedAt (phase2Grid s) (cellY ((phase4Enemies s).enemy_y_half.getD i 0))
        ((phase4Enemies s).enemy_x.getD i 0) = true := by
  obtain ⟨h1, h2, hs, hy, hx⟩ := placedCell_eq s a y x hp
  intro i hmask
  set cy := cellY ((phase4Enemies s).enemy_y_half.getD i 0) with hcy
  set cx := (phase4Enemies s).enemy_x.getD i 0 with hcx
  have hm : armedAt (phase3Grid s a) cy cx = true := by
    unfold stepMask detect_collisions at hmask
    rw [getD_map_range] at hmask
    by_cases hi : i < MAX_ENEMIES
    · rw [if_pos hi] at hmask
      exact (Bool.and_eq_true_iff.mp hmask).1
    · rw [if_neg hi] at hmask
      exact absurd hmask (by simp)
  rw [phase3Grid_placed s a h1 h2 hs] at hm
  unfold armedAt at hm ⊢
  rcases hb : (decide (cy < 9 ∧ cx < 13)) with _ | _
  · rw [dif_neg (of_decide_eq_false hb)] at hm
    exact absurd hm (by simp)
  · have hb' := of_decide_eq_true hb
    rw [dif_pos hb'] at hm
    rw [apply_cooldowns_wall_armed] at hm
    have harm := ((place_wall_char (phase2Grid s)
      ((a - 1) / WIDTH) ((a - 1) % WIDTH)).2.2.2 ⟨cy, hb'.1⟩ ⟨cx, hb'.2⟩).2.2.2
    rw [harm] at hm
    rw [dif_pos hb']
    split at hm
    · exact absurd hm (by simp)
    · next hne =>
      have ha : 1 ≤ a := Nat.one_le_iff_ne_zero.mpr h1
      have hcast : ((a : Int) - 1) = ((a - 1 : Nat) : Int) := by omega
      have hdiv : (((a : Int) - 1) / (WIDTH : Int)).toNat = (a - 1) / WIDTH := by
        rw [hcast]; norm_cast
      have hmod : (((a : Int) - 1) % (WIDTH : Int)).toNat = (a - 1) % WIDTH := by
        rw [hcast]; norm_cast
      refine ⟨fun hcontra => hne ⟨hs, ?_, ?_⟩, hm⟩
      · rw [hdiv, ← hy]; exact hcontra.1
      · rw [hmod, ← hx]; exact hcontra.2

/-- A concrete state with an armed wall at `(2, 3)` and an enemy about to
step onto it, while the action places a fresh wall at `(4, 6)`. -/
def c4State : SimulationState :=
  { grid_state := { create_grid_state with
      grid := setCell create_grid_state.grid 2 3 WALL
      wall_hp := setCell create_grid_state.wall_hp 2 3 1
      wall_armed := setCell create_grid_state.wall_armed 2 3 true }
    enemy_state := { create_enemy_state with
      enemy_alive := (List.replicate MAX_ENEMIES false).set 0 true
      enemy_y_half := (List.replicate MAX_ENEMIES 0).set 0 4
      enemy_x := (List.replicate MAX_ENEMIES 0).set 0 3 }
    tick := 1
    spawn_interval := 0
    rng := rngZero }

/-- Witness for C4: action 59 places a wall at `(4, 6)` while enemy 0 is
masked on the pre-armed cell `(2, 3)`, which is not the placed cell. -/
theorem placed_wall_no_same_tick_kill_witness :
    ¬(cellY ((phase4Enemies c4State).enemy_y_half.getD 0 0) = 4 ∧
        (phase4Enemies c4State).enemy_x.getD 0 0 = 6) ∧
      armedAt (phase2Grid c4State)
        (cellY ((phase4Enemies c4State).enemy_y_half.getD 0 0))
        ((phase4Enemies c4State).enemy_x.getD 0 0) = true :=
  placed_wall_no_same_tick_kill c4State 59 4 6 (by decide) 0 (by decide)

/-! ## Claim C9: wall-flag consistency invariants after every step -/

/-- The four per-cell wall-flag consistency invariants. -/
def WallInv (g : GridState) : Prop :=
  ∀ (i : Fin 9) (j : Fin 13),
    (0 < g.wall_hp i j ↔ g.grid i j = WALL) ∧
    (g.wall_armed i j = true → g.grid i j = WALL) ∧
    (g.wall_pending i j = true → g.grid i j = WALL ∧ g.wall_armed i j = false) ∧
    ¬(g.wall_armed i j = true ∧ g.wall_pending i j = true)

instance (g : GridState) : Decidable (WallInv g) := by
  unfold WallInv; infer_instance

lemma wallInv_tick_cooldowns (g : GridState) (h : WallInv g) :
    WallInv (tick_cooldowns g) := h

lemma wallInv_arm_pending (g : GridState) (h : WallInv g) :
    WallInv (arm_pending_walls g) := by
  intro i j
  obtain ⟨h1, h2, h3, h4⟩ := h i j
  refine ⟨h1, ?_, ?_, ?_⟩
  · intro ha
    rcases Bool.or_eq_true_iff.mp ha with ha' | hp'
    · exact h2 ha'
    · exact (h3 hp').1
  · intro hp
    exact absurd hp (by simp [arm_pending_walls])
  · intro ⟨_, hp⟩
    exact absurd hp (by simp [arm_pending_walls])

lemma wallInv_place_wall (g : GridState) (y x : Int) (h : WallInv g) :
    WallInv (place_wall g y x).2 := by
  intro i j
  obtain ⟨e1, e2, e3, e4⟩ := (place_wall_char g y x).2.2.2 i j
  rw [e1, e2, e3, e4]
  split_ifs with hc
  · refine ⟨by norm_num [DEFAULT_WALL_HP, WALL], fun hf => absurd hf (by simp),
      fun _ => ⟨rfl, rfl⟩, fun ⟨hf, _⟩ => absurd hf (by simp)⟩
  · exact h i j

lemma wallInv_apply_cooldowns (g : GridState) (y x : Int) (h : WallInv g) :
    WallInv (apply_cooldowns g y x) := by
  unfold apply_cooldowns
  split <;> exact h

lemma wallInv_phase3 (s : SimulationState) (a : Nat)
    (h : WallInv (phase2Grid s)) : WallInv (phase3Grid s a) := by
  unfold phase3Grid
  split
  · dsimp only
    split
    · exact wallInv_apply_cooldowns _ _ _ (wallInv_place_wall _ _ _ h)
    · exact wallInv_place_wall _ _ _ h
  · exact h

lemma damageAt_killMasked (e : EnemyState) (mask : List Bool)
    (cy : Fin 9) (cx : Fin 13) :
    damageAt (killMasked e mask) mask cy cx = damageAt e mask cy cx := rfl

lemma destroyedAt_killMasked (g : GridState) (e : EnemyState) (mask : List Bool)
    (cy : Fin 9) (cx : Fin 13) :
    destroyedAt g (killMasked e mask) mask cy cx = destroyedAt g e mask cy cx := rfl

lemma mask_getD_false (mask : List Bool) (h : mask.count true = 0) (i : Nat) :
    mask.getD i false = false := by
  have hnm : true ∉ mask := List.count_eq_zero.mp h
  by_cases hi : i < mask.length
  · rw [List.getD_eq_getElem _ _ hi]
    cases hb : mask[i] with
    | false => rfl
    | true => exact absurd (hb ▸ List.getElem_mem hi) hnm
  · exact List.getD_eq_default _ _ (by omega)

lemma damageAt_of_count_zero (e : EnemyState) (mask : List Bool)
    (cy : Fin 9) (cx : Fin 13) (h : mask.count true = 0) :
    damageAt e mask cy cx = 0 := by
  unfold damageAt
  rw [List.countP_eq_zero]
  intro i _
  simp only [mask_getD_false mask h i, Bool.false_and]
  exact Bool.false_ne_true

lemma destroyedAt_of_count_zero (g : GridState) (e : EnemyState)
    (mask : List Bool) (cy : Fin 9) (cx : Fin 13) (h : mask.count true = 0) :
    destroyedAt g e mask cy cx = false := by
  unfold destroyedAt
  rw [damageAt_of_count_zero e mask cy cx h]
  simp

lemma resolve_killed (g : GridState) (e : EnemyState) (mask : List Bool) :
    (resolve_collisions g e mask).1.1 = mask.count true := by
  simp only [resolve_collisions]
  split
  · next h => exact h.symm
  · rfl

lemma resolve_enemies (g : GridState) (e : EnemyState) (mask : List Bool) :
    (resolve_collisions g e mask).2.2 = killMasked e mask := by
  simp only [resolve_collisions]
  split <;> rfl

lemma resolve_destroyed_count (g : GridState) (e : EnemyState) (mask : List Bool) :
    (resolve_collisions g e mask).1.2 =
      ((List.finRange 9).map fun cy =>
        (List.finRange 13).countP fun cx => destroyedAt g e mask cy cx).sum := by
  simp only [resolve_collisions]
  split
  · next h =>
    symm
    simp [destroyedAt_of_count_zero g e mask _ _ h]
  · rfl

lemma resolve_grid (g : GridState) (e : EnemyState) (mask : List Bool)
    (i : Fin 9) (j : Fin 13) :
    (resolve_collisions g e mask).2.1.grid i j =
      if destroyedAt g e mask i j = true then EMPTY else g.grid i j := by
  simp only [resolve_collisions]
  split
  · next h =>
    rw [destroyedAt_of_count_zero g e mask i j h]
    simp
  · rfl

lemma resolve_hp (g : GridState) (e : EnemyState) (mask : List Bool)
    (i : Fin 9) (j : Fin 13) :
    (resolve_collisions g e mask).2.1.wall_hp i j =
      if destroyedAt g e mask i j = true then 0
      else g.wall_hp i j - damageAt e mask i j := by
  simp only [resolve_collisions]
  split
  · next h =>
    rw [destroyedAt_of_count_zero g e mask i j h,
      damageAt_of_count_zero e mask i j h]
    simp
  · rfl

lemma resolve_armed (g : GridState) (e : EnemyState) (mask : List Bool)
    (i : Fin 9) (j : Fin 13) :
    (resolve_collisions g e mask).2.1.wall_armed i j =
      if destroyedAt g e mask i j = true then false else g.wall_armed i j := by
  simp only [resolve_collisions]
  split
  · next h =>
    rw [destroyedAt_of_count_zero g e mask i j h]
    simp
  · rfl

lemma resolve_pending (g : GridState) (e : EnemyState) (mask : List Bool)
    (i : Fin 9) (j : Fin 13) :
    (resolve_collisions g e mask).2.1.wall_pending i j =
      if destroyedAt g e mask i j = true then false else g.wall_pending i j := by
  simp only [resolve_collisions]
  split
  · next h =>
    rw [destroyedAt_of_count_zero g e mask i j h]
    simp
  · rfl

lemma resolve_cell_cd (g : GridState) (e : EnemyState) (mask : List Bool) :
    (resolve_collisions g e mask).2.1.cell_cd = g.cell_cd := by
  simp only [resolve_collisions]
  split <;> rfl

lemma wallInv_resolve (g : GridState) (e : EnemyState) (mask : List Bool)
    (h : WallInv g) : WallInv (resolve_collisions g e mask).2.1 := by
  intro i j
  obtain ⟨h1, h2, h3, h4⟩ := h i j
  rw [resolve_grid g e mask i j, resolve_hp g e mask i j,
    resolve_armed g e mask i j, resolve_pending g e mask i j]
  by_cases hd : destroyedAt g e mask i j = true
  · simp only [hd, if_true]
    exact ⟨by simp [EMPTY, WALL], by simp, by simp, by simp⟩
  · simp only [if_neg hd]
    have hnd : ¬(0 < damageAt e mask i j ∧
        g.wall_hp i j ≤ damageAt e mask i j) := by
      intro hc
      exact hd (by unfold destroyedAt; exact decide_eq_true hc)
    refine ⟨⟨fun hpos => h1.mp (by omega), fun hg => ?_⟩, h2, h3, h4⟩
    have hhp := h1.mpr hg
    by_cases hD : 0 < damageAt e mask i j
    · have hlt : ¬(g.wall_hp i j ≤ damageAt e mask i j) :=
        fun hle => hnd ⟨hD, hle⟩
      omega
    · omega

lemma wallInv_step (s : SimulationState) (a : Nat)
    (h : WallInv s.grid_state) : WallInv (step s a).1.grid_state := by
  rw [step_grid_state]
  exact wallInv_resolve _ _ _
    (wallInv_phase3 s a (wallInv_arm_pending _ (wallInv_tick_cooldowns _ h)))

/-- **C9.** After every call to `step` in any episode (any seed stream, any
spawn interval, any action sequence), the wall-flag consistency invariants
hold at every cell: `wall_hp > 0` iff there is a wall, armed implies a wall,
pending implies a wall and not armed, and armed and pending are disjoint. -/
theorem wall_flag_invariants (si : Nat) (r : Rng) (acts : List Nat) :
    WallInv (runSteps (create_simulation_state si r) acts).grid_state := by
  have key : ∀ (l : List Nat) (s : SimulationState),
      WallInv s.grid_state → WallInv (runSteps s l).grid_state := by
    intro l
    induction l with
    | nil => exact fun s h => h
    | cons a as ih => exact fun s h => ih _ (wallInv_step s a h)
  exact key acts (create_simulation_state si r)
    (show WallInv create_grid_state by decide)

/-- The S3 grid: an armed wall with 3 HP at `(4, 6)`. -/
def s3Grid : GridState :=
  { create_grid_state with
    grid := setCell create_grid_state.grid 4 6 WALL
    wall_hp := setCell create_grid_state.wall_hp 4 6 3
    wall_armed := setCell create_grid_state.wall_armed 4 6 true }

/-- The S3 enemies: three alive enemies at `y_half = 8, x = 6` (cell (4,6)). -/
def s3Enemies : EnemyState :=
  { enemy_y_half := [8, 8, 8] ++ List.replicate 17 0
    enemy_x := [6, 6, 6] ++ List.replicate 17 0
    enemy_alive := [true, true, true] ++ List.replicate 17 false
    enemy_type := List.replicate 20 0
    enemy_spawn_tick := List.replicate 20 0 }

/-! ## Claim C6: collision resolution -/

lemma detect_collisions_length (g : GridState) (e : EnemyState) :
    (detect_collisions g e).length = MAX_ENEMIES := by
  simp [detect_collisions]

lemma killMasked_alive_getD (e : EnemyState) (mask : List Bool) (i : Nat)
    (hl : i < e.enemy_alive.length) (hm : i < mask.length) :
    (killMasked e mask).enemy_alive.getD i false =
      (e.enemy_alive.getD i false && !(mask.getD i false)) := by
  unfold killMasked
  rw [List.getD_eq_getElem _ _ (by rw [List.length_zipWith]; omega),
    List.getElem_zipWith, List.getD_eq_getElem _ _ hl,
    List.getD_eq_getElem _ _ hm]

lemma countP_eq_sum_map (q : α → Bool) :
    ∀ (l : List α), l.countP q = (l.map fun a => if q a = true then 1 else 0).sum
  | [] => rfl
  | a :: l => by
    rw [List.countP_cons, List.map_cons, List.sum_cons, countP_eq_sum_map q l]
    by_cases h : q a = true <;> simp [h] <;> omega

lemma countP_range_eq_card_filter (n : Nat) (p : Nat → Bool) :
    (List.range n).countP p =
      ((Finset.range n).filter fun i => p i = true).card := by
  induction n with
  | zero => rfl
  | succ k ih =>
    rw [List.range_succ, List.countP_append, Finset.range_succ,
      Finset.filter_insert]
    by_cases h : p k = true
    · rw [if_pos h, Finset.card_insert_of_not_mem (by simp), ← ih]
      simp [h]
    · rw [if_neg h, ← ih]
      simp [h]

lemma sum_countP_eq_card_filter (p : Fin 9 → Fin 13 → Bool) :
    ((List.finRange 9).map fun cy =>
      (List.finRange 13).countP fun cx => p cy cx).sum =
    (Finset.univ.filter fun q : Fin 9 × Fin 13 => p q.1 q.2 = true).card := by
  rw [Finset.card_filter, Fintype.sum_prod_type, ← Fin.sum_univ_def]
  refine Finset.sum_congr rfl fun cy _ => ?_
  rw [countP_eq_sum_map, ← Fin.sum_univ_def]

lemma destroyedAt_iff (g : GridState) (e : EnemyState) (mask : List Bool)
    (cy : Fin 9) (cx : Fin 13) :
    destroyedAt g e mask cy cx = true ↔
      0 < damageAt e mask cy cx ∧ g.wall_hp cy cx ≤ damageAt e mask cy cx := by
  unfold destroyedAt
  exact decide_eq_true_iff

/-- **C6.** With the mask produced by `detect_collisions`:
`resolve_collisions` returns `(number of masked enemies, number of destroyed
cells)`; it marks exactly the masked enemies dead and leaves the four other
enemy arrays untouched; the per-cell damage `D` counts the masked enemies
whose cell `(y_half / 2, x)` is that cell (so `k` coincident enemies yield
damage `k`); a cell is destroyed iff `D > 0 ∧ D ≥ wall_hp`, destroyed cells
get `grid = 0`, `wall_hp = 0`, `wall_armed = false`, `wall_pending = false`,
and surviving cells get `wall_hp = max(wall_hp − D, 0)` computed without
unsigned wrap-around (truncated subtraction). -/
theorem resolve_collisions_spec (g : GridState) (e : EnemyState) (hw : e.wf) :
    (resolve_collisions g e (detect_collisions g e)).1.1 =
      (detect_collisions g e).count true ∧
    (∀ i, i < MAX_ENEMIES →
      (resolve_collisions g e (detect_collisions g e)).2.2.enemy_alive.getD i false =
        (e.enemy_alive.getD i false && !((detect_collisions g e).getD i false))) ∧
    (resolve_collisions g e (detect_collisions g e)).2.2.enemy_y_half =
      e.enemy_y_half ∧
    (resolve_collisions g e (detect_collisions g e)).2.2.enemy_x = e.enemy_x ∧
    (resolve_collisions g e (detect_collisions g e)).2.2.enemy_type =
      e.enemy_type ∧
    (resolve_collisions g e (detect_collisions g e)).2.2.enemy_spawn_tick =
      e.enemy_spawn_tick ∧
    (∀ (cy : Fin 9) (cx : Fin 13),
      damageAt e (detect_collisions g e) cy cx =
        ((Finset.range MAX_ENEMIES).filter fun i =>
          (detect_collisions g e).getD i false = true ∧
          cellY (e.enemy_y_half.getD i 0) = (cy : Nat) ∧
          e.enemy_x.getD i 0 = (cx : Nat)).card ∧
      ((resolve_collisions g e (detect_collisions g e)).2.1.grid cy cx =
        if 0 < damageAt e (detect_collisions g e) cy cx ∧
            g.wall_hp cy cx ≤ damageAt e (detect_collisions g e) cy cx
        then EMPTY else g.grid cy cx) ∧
      ((resolve_collisions g e (detect_collisions g e)).2.1.wall_hp cy cx =
        if 0 < damageAt e (detect_collisions g e) cy cx ∧
            g.wall_hp cy cx ≤ damageAt e (detect_collisions g e) cy cx
        then 0 else g.wall_hp cy cx - damageAt e (detect_collisions g e) cy cx) ∧
      ((resolve_collisions g e (detect_collisions g e)).2.1.wall_armed cy cx =
        if 0 < damageAt e (detect_collisions g e) cy cx ∧
            g.wall_hp cy cx ≤ damageAt e (detect_collisions g e) cy cx
        then false else g.wall_armed cy cx) ∧
      ((resolve_collisions g e (detect_collisions g e)).2.1.wall_pending cy cx =
        if 0 < damageAt e (detect_collisions g e) cy cx ∧
            g.wall_hp cy cx ≤ damageAt e (detect_collisions g e) cy cx
        then false else g.wall_pending cy cx)) ∧
    (resolve_collisions g e (detect_collisions g e)).1.2 =
      (Finset.univ.filter fun q : Fin 9 × Fin 13 =>
        0 < damageAt e (detect_collisions g e) q.1 q.2 ∧
        g.wall_hp q.1 q.2 ≤ damageAt e (detect_collisions g e) q.1 q.2).card := by
  set mask := detect_collisions g e with hmask
  refine ⟨resolve_killed g e mask, ?_, ?_, ?_, ?_, ?_, ?_, ?_⟩
  · intro i hi
    rw [resolve_enemies]
    refine killMasked_alive_getD e mask i ?_ ?_
    · rw [hw.2.2.1]; exact hi
    · rw [hmask, detect_collisions_length]; exact hi
  · rw [resolve_enemies]; rfl
  · rw [resolve_enemies]; rfl
  · rw [resolve_enemies]; rfl
  · rw [resolve_enemies]; rfl
  · intro cy cx
    refine ⟨?_, ?_, ?_, ?_, ?_⟩
    · unfold damageAt
      rw [countP_range_eq_card_filter]
      congr 1
      apply Finset.filter_congr
      intro i _
      simp [Bool.and_eq_true, and_assoc]
    · rw [resolve_grid]
      exact if_congr (destroyedAt_iff g e mask cy cx) rfl rfl
    · rw [resolve_hp]
      exact if_congr (destroyedAt_iff g e mask cy cx) rfl rfl
    · rw [resolve_armed]
      exact if_congr (destroyedAt_iff g e mask cy cx) rfl rfl
    · rw [resolve_pending]
      exact if_congr (destroyedAt_iff g e mask cy cx) rfl rfl
  · rw [resolve_destroyed_count, sum_countP_eq_card_filter]
    congr 1
    apply Finset.filter_congr
    intro q _
    exact destroyedAt_iff g e mask q.1 q.2

/-- Witness for C6 on the S3 damage-stacking scenario (three coincident
enemies on an armed 3-HP wall). -/
theorem resolve_collisions_spec_witness :
    (resolve_collisions s3Grid s3Enemies
        (detect_collisions s3Grid s3Enemies)).1.1 =
      (detect_collisions s3Grid s3Enemies).count true :=
  (resolve_collisions_spec s3Grid s3Enemies (by decide)).1

/-! ## Claim C3: the S1 no-op scenario -/

/-- No wall is armed or pending (the state of the S1 run, where no action
is ever taken). -/
def CleanWalls (g : GridState) : Prop :=
  (∀ (i : Fin 9) (j : Fin 13), g.wall_armed i j = false) ∧
  (∀ (i : Fin 9) (j : Fin 13), g.wall_pending i j = false)

/-- Observational equivalence of two simulations that may differ only in
the generator stream and the enemy columns it produced. -/
def ObsEq (s1 s2 : SimulationState) : Prop :=
  s1.grid_state = s2.grid_state ∧
  s1.enemy_state.enemy_y_half = s2.enemy_state.enemy_y_half ∧
  s1.enemy_state.enemy_alive = s2.enemy_state.enemy_alive ∧
  s1.enemy_state.enemy_type = s2.enemy_state.enemy_type ∧
  s1.enemy_state.enemy_spawn_tick = s2.enemy_state.enemy_spawn_tick ∧
  s1.enemy_state.enemy_x.length = s2.enemy_state.enemy_x.length ∧
  s1.tick = s2.tick ∧ s1.spawn_interval = s2.spawn_interval

lemma armedAt_clean (g : GridState) (hc : CleanWalls g) (cy cx : Nat) :
    armedAt g cy cx = false := by
  unfold armedAt
  split
  · exact hc.1 _ _
  · rfl

lemma detect_clean (g : GridState) (e : EnemyState) (hc : CleanWalls g) :
    detect_collisions g e = List.replicate MAX_ENEMIES false := by
  unfold detect_collisions
  simp only [armedAt_clean g hc, Bool.false_and]
  rw [List.map_const', List.length_range]

lemma zipWith_mask_false :
    ∀ (l : List Bool) (n : Nat), l.length ≤ n →
      List.zipWith (fun a m => a && !m) l (List.replicate n false) = l
  | [], _, _ => by simp
  | a :: l, n + 1, h => by
    rw [List.replicate_succ, List.zipWith_cons_cons,
      zipWith_mask_false l n (by simpa using h)]
    simp
  | a :: l, 0, h => by simp at h

lemma resolve_of_count_zero (g : GridState) (e : EnemyState) (mask : List Bool)
    (h : mask.count true = 0) :
    resolve_collisions g e mask = ((0, 0), g, killMasked e mask) := by
  simp only [resolve_collisions]
  rw [if_pos h]

lemma breach_congr (e1 e2 : EnemyState)
    (hy : e1.enemy_y_half = e2.enemy_y_half)
    (ha : e1.enemy_alive = e2.enemy_alive) :
    detect_core_breach e1 = detect_core_breach e2 := by
  unfold detect_core_breach
  rw [hy, ha]

lemma padFrom_length (l : List α) (k : Nat) (z : α) :
    (padFrom l k z).length = l.length := by
  simp only [padFrom, List.length_append, List.length_take, List.length_replicate]
  omega

lemma phase2Grid_congr (s1 s2 : SimulationState)
    (h : s1.grid_state = s2.grid_state) : phase2Grid s1 = phase2Grid s2 := by
  unfold phase2Grid
  rw [h]

lemma phase3Grid_noop (s : SimulationState) : phase3Grid s 0 = phase2Grid s := by
  unfold phase3Grid
  rw [if_neg]
  intro hc
  exact hc.1 rfl

lemma phase2_clean (s : SimulationState) (hc : CleanWalls s.grid_state) :
    CleanWalls (phase2Grid s) := by
  refine ⟨fun i j => ?_, fun i j => rfl⟩
  show (s.grid_state.wall_armed i j || s.grid_state.wall_pending i j) = false
  rw [hc.1 i j, hc.2 i j]
  rfl

lemma step_enemy_state (s : SimulationState) (a : Nat) :
    (step s a).1.enemy_state =
      (compact_enemies
        (if 0 < s.spawn_interval ∧ s.tick % s.spawn_interval = 0
          then (spawn_enemy (stepResolve s a).2.2 s.tick s.rng).2.1
          else (stepResolve s a).2.2)).2 := rfl

lemma step_out (s : SimulationState) (a : Nat) :
    (step s a).2 =
      (((stepResolve s a).1.1 : Int) * REWARD_ENEMY_KILLED +
          REWARD_TICK_SURVIVED +
          (if detect_core_breach (stepResolve s a).2.2
            then REWARD_CORE_BREACH else 0),
        detect_core_breach (stepResolve s a).2.2,
        decide (MAX_EPISODE_TICKS ≤ s.tick + 1)) := rfl

lemma killMasked_replicate_false (e : EnemyState) (n : Nat)
    (h : e.enemy_alive.length ≤ n) :
    killMasked e (List.replicate n false) = e := by
  unfold killMasked
  rw [zipWith_mask_false _ _ h]

lemma stepResolve_noop (s : SimulationState) (hc : CleanWalls s.grid_state)
    (hal : s.enemy_state.enemy_alive.length = MAX_ENEMIES) :
    stepResolve s 0 = ((0, 0), phase2Grid s, phase4Enemies s) := by
  unfold stepResolve
  have hmask : stepMask s 0 = List.replicate MAX_ENEMIES false := by
    unfold stepMask
    rw [phase3Grid_noop]
    exact detect_clean _ _ (phase2_clean s hc)
  rw [hmask, phase3Grid_noop,
    resolve_of_count_zero _ _ _ (by decide),
    killMasked_replicate_false _ _ (by exact hal.le)]

lemma move_enemies_components (e1 e2 : EnemyState)
    (hy : e1.enemy_y_half = e2.enemy_y_half)
    (ha : e1.enemy_alive = e2.enemy_alive) :
    (move_enemies e1).enemy_y_half = (move_enemies e2).enemy_y_half ∧
    (move_enemies e1).enemy_alive = (move_enemies e2).enemy_alive := by
  unfold move_enemies
  exact ⟨by rw [hy, ha], ha⟩

lemma spawn_components (e1 e2 : EnemyState) (t : Nat) (r1 r2 : Rng)
    (hy : e1.enemy_y_half = e2.enemy_y_half)
    (ha : e1.enemy_alive = e2.enemy_alive)
    (hty : e1.enemy_type = e2.enemy_type)
    (hst : e1.enemy_spawn_tick = e2.enemy_spawn_tick)
    (hx : e1.enemy_x.length = e2.enemy_x.length) :
    (spawn_enemy e1 t r1).2.1.enemy_y_half =
      (spawn_enemy e2 t r2).2.1.enemy_y_half ∧
    (spawn_enemy e1 t r1).2.1.enemy_alive =
      (spawn_enemy e2 t r2).2.1.enemy_alive ∧
    (spawn_enemy e1 t r1).2.1.enemy_type =
      (spawn_enemy e2 t r2).2.1.enemy_type ∧
    (spawn_enemy e1 t r1).2.1.enemy_spawn_tick =
      (spawn_enemy e2 t r2).2.1.enemy_spawn_tick ∧
    (spawn_enemy e1 t r1).2.1.enemy_x.length =
      (spawn_enemy e2 t r2).2.1.enemy_x.length := by
  unfold spawn_enemy
  rw [ha]
  cases hfi : e2.enemy_alive.findIdx? (fun a => !a) with
  | none => exact ⟨hy, ha, hty, hst, hx⟩
  | some slot =>
    refine ⟨by rw [hy], rfl, by rw [hty], by rw [hst], ?_⟩
    show (e1.enemy_x.set slot (rngNext r1).1).length =
      (e2.enemy_x.set slot (rngNext r2).1).length
    simp only [List.length_set]
    exact hx

lemma compact_components (e1 e2 : EnemyState)
    (hy : e1.enemy_y_half = e2.enemy_y_half)
    (ha : e1.enemy_alive = e2.enemy_alive)
    (hty : e1.enemy_type = e2.enemy_type)
    (hst : e1.enemy_spawn_tick = e2.enemy_spawn_tick)
    (hx : e1.enemy_x.length = e2.enemy_x.length) :
    (compact_enemies e1).1 = (compact_enemies e2).1 ∧
    (compact_enemies e1).2.enemy_y_half = (compact_enemies e2).2.enemy_y_half ∧
    (compact_enemies e1).2.enemy_alive = (compact_enemies e2).2.enemy_alive ∧
    (compact_enemies e1).2.enemy_type = (compact_enemies e2).2.enemy_type ∧
    (compact_enemies e1).2.enemy_spawn_tick =
      (compact_enemies e2).2.enemy_spawn_tick ∧
    (compact_enemies e1).2.enemy_x.length =
      (compact_enemies e2).2.enemy_x.length := by
  unfold compact_enemies
  rw [ha, hst, hy, hty]
  refine ⟨rfl, rfl, rfl, rfl, rfl, ?_⟩
  simp only [padFrom_length, List.length_map]

lemma sort_indices_length (alive : List Bool) (st : List Nat) :
    (sort_indices alive st).length = MAX_ENEMIES := by
  unfold sort_indices
  rw [(List.perm_insertionSort (compactLE alive st)
    (List.range MAX_ENEMIES)).length_eq]
  exact List.length_range MAX_ENEMIES

lemma compact_alive_length (e : EnemyState) :
    (compact_enemies e).2.enemy_alive.length = MAX_ENEMIES := by
  unfold compact_enemies
  simp only [padFrom_length, List.length_map]
  exact sort_indices_length _ _

/-- One NO-OP step preserves observational equivalence, clean walls, and
the alive-array length, and produces equal output tuples. -/
lemma step_noop_bisim (s1 s2 : SimulationState)
    (ho : ObsEq s1 s2) (hc : CleanWalls s1.grid_state)
    (hal : s1.enemy_state.enemy_alive.length = MAX_ENEMIES) :
    ObsEq (step s1 0).1 (step s2 0).1 ∧ (step s1 0).2 = (step s2 0).2 ∧
    CleanWalls (step s1 0).1.grid_state ∧
    (step s1 0).1.enemy_state.enemy_alive.length = MAX_ENEMIES := by
  obtain ⟨hg, hy, ha, hty, hst, hx, ht, hsi⟩ := ho
  have hc2 : CleanWalls s2.grid_state := hg ▸ hc
  have hal2 : s2.enemy_state.enemy_alive.length = MAX_ENEMIES := ha ▸ hal
  have hres1 := stepResolve_noop s1 hc hal
  have hres2 := stepResolve_noop s2 hc2 hal2
  have hmv := move_enemies_components s1.enemy_state s2.enemy_state hy ha
  have hmvty : (move_enemies s1.enemy_state).enemy_type =
      (move_enemies s2.enemy_state).enemy_type := hty
  have hmvst : (move_enemies s1.enemy_state).enemy_spawn_tick =
      (move_enemies s2.enemy_state).enemy_spawn_tick := hst
  have hmvx : (move_enemies s1.enemy_state).enemy_x.length =
      (move_enemies s2.enemy_state).enemy_x.length := hx
  have hbr : detect_core_breach (stepResolve s1 0).2.2 =
      detect_core_breach (stepResolve s2 0).2.2 := by
    rw [hres1, hres2]
    exact breach_congr _ _ hmv.1 hmv.2
  have hsp : (0 < s1.spawn_interval ∧ s1.tick % s1.spawn_interval = 0) =
      (0 < s2.spawn_interval ∧ s2.tick % s2.spawn_interval = 0) := by
    rw [ht, hsi]
  refine ⟨?_, ?_, ?_, ?_⟩
  · -- ObsEq of the successor states
    have he3 :
        (if 0 < s1.spawn_interval ∧ s1.tick % s1.spawn_interval = 0
          then (spawn_enemy (stepResolve s1 0).2.2 s1.tick s1.rng).2.1
          else (stepResolve s1 0).2.2).enemy_y_half =
        (if 0 < s2.spawn_interval ∧ s2.tick % s2.spawn_interval = 0
          then (spawn_enemy (stepResolve s2 0).2.2 s2.tick s2.rng).2.1
          else (stepResolve s2 0).2.2).enemy_y_half ∧
        (if 0 < s1.spawn_interval ∧ s1.tick % s1.spawn_interval = 0
          then (spawn_enemy (stepResolve s1 0).2.2 s1.tick s1.rng).2.1
          else (stepResolve s1 0).2.2).enemy_alive =
        (if 0 < s2.spawn_interval ∧ s2.tick % s2.spawn_interval = 0
          then (spawn_enemy (stepResolve s2 0).2.2 s2.tick s2.rng).2.1
          else (stepResolve s2 0).2.2).enemy_alive ∧
        (if 0 < s1.spawn_interval ∧ s1.tick % s1.spawn_interval = 0
          then (spawn_enemy (stepResolve s1 0).2.2 s1.tick s1.rng).2.1
          else (stepResolve s1 0).2.2).enemy_type =
        (if 0 < s2.spawn_interval ∧ s2.tick % s2.spawn_interval = 0
          then (spawn_enemy (stepResolve s2 0).2.2 s2.tick s2.rng).2.1
          else (stepResolve s2 0).2.2).enemy_type ∧
        (if 0 < s1.spawn_interval ∧ s1.tick % s1.spawn_interval = 0
          then (spawn_enemy (stepResolve s1 0).2.2 s1.tick s1.rng).2.1
          else (stepResolve s1 0).2.2).enemy_spawn_tick =
        (if 0 < s2.spawn_interval ∧ s2.tick % s2.spawn_interval = 0
          then (spawn_enemy (stepResolve s2 0).2.2 s2.tick s2.rng).2.1
          else (stepResolve s2 0).2.2).enemy_spawn_tick ∧
        (if 0 < s1.spawn_interval ∧ s1.tick % s1.spawn_interval = 0
          then (spawn_enemy (stepResolve s1 0).2.2 s1.tick s1.rng).2.1
          else (stepResolve s1 0).2.2).enemy_x.length =
        (if 0 < s2.spawn_interval ∧ s2.tick % s2.spawn_interval = 0
          then (spawn_enemy (stepResolve s2 0).2.2 s2.tick s2.rng).2.1
          else (stepResolve s2 0).2.2).enemy_x.length := by
      rw [hres1, hres2]
      by_cases hdue : 0 < s1.spawn_interval ∧ s1.tick % s1.spawn_interval = 0
      · have hdue2 : 0 < s2.spawn_interval ∧ s2.tick % s2.spawn_interval = 0 := by
          rw [← ht, ← hsi]; exact hdue
        simp only [if_pos hdue, if_pos hdue2]
        rw [ht]
        exact spawn_components _ _ _ _ _ hmv.1 hmv.2 hmvty hmvst hmvx
      · have hdue2 : ¬(0 < s2.spawn_interval ∧ s2.tick % s2.spawn_interval = 0) := by
          rw [← ht, ← hsi]; exact hdue
        simp only [if_neg hdue, if_neg hdue2]
        exact ⟨hmv.1, hmv.2, hmvty, hmvst, hmvx⟩
    obtain ⟨he3y, he3a, he3ty, he3st, he3x⟩ := he3
    have hcmp := compact_components _ _ he3y he3a he3ty he3st he3x
    refine ⟨?_, ?_, ?_, ?_, ?_, ?_, ?_, ?_⟩
    · rw [step_grid_state, step_grid_state, hres1, hres2]
      exact phase2Grid_congr s1 s2 hg
    · rw [step_enemy_state, step_enemy_state]
      exact hcmp.2.1
    · rw [step_enemy_state, step_enemy_state]
      exact hcmp.2.2.1
    · rw [step_enemy_state, step_enemy_state]
      exact hcmp.2.2.2.1
    · rw [step_enemy_state, step_enemy_state]
      exact hcmp.2.2.2.2.1
    · rw [step_enemy_state, step_enemy_state]
      exact hcmp.2.2.2.2.2
    · show s1.tick + 1 = s2.tick + 1
      rw [ht]
    · exact hsi
  · have hbr' : detect_core_breach (phase4Enemies s1) =
        detect_core_breach (phase4Enemies s2) := by
      have h := hbr
      rw [hres1, hres2] at h
      exact h
    rw [step_out, step_out, hres1, hres2, hbr', ht]
  · rw [step_grid_state, hres1]
    exact phase2_clean s1 hc
  · rw [step_enemy_state]
    exact compact_alive_length _

/-- A NO-OP run is observationally independent of the generator stream. -/
lemma run_noop_bisim : ∀ (n : Nat) (s1 s2 : SimulationState),
    ObsEq s1 s2 → CleanWalls s1.grid_state →
    s1.enemy_state.enemy_alive.length = MAX_ENEMIES →
    runOutputs s1 (List.replicate n 0) = runOutputs s2 (List.replicate n 0) ∧
    ObsEq (runSteps s1 (List.replicate n 0)) (runSteps s2 (List.replicate n 0))
  | 0, s1, s2, ho, _, _ => ⟨rfl, ho⟩
  | n + 1, s1, s2, ho, hc, hal => by
    obtain ⟨ho', hout, hc', hal'⟩ := step_noop_bisim s1 s2 ho hc hal
    obtain ⟨ih1, ih2⟩ :=
      run_noop_bisim n (step s1 0).1 (step s2 0).1 ho' hc' hal'
    rw [List.replicate_succ]
    refine ⟨?_, ih2⟩
    show (step s1 0).2 :: runOutputs (step s1 0).1 (List.replicate n 0) =
      (step s2 0).2 :: runOutputs (step s2 0).1 (List.replicate n 0)
    rw [hout, ih1]

set_option maxRecDepth 400000 in
/-- **C3 (counterexample).** In the S1 run (fresh simulation,
`spawn_interval = 30`, NO-OP actions), the 17th step — tick 16 — returns
`(-1, true, false)`: the enemy spawned at tick 0 has reached
`y_half = CORE_Y_HALF = 16`, so a core breach *is* reported during the
100-step sequence, contradicting the claim. -/
theorem s1_no_breach_counterexample :
    (runOutputs (create_simulation_state DEFAULT_SPAWN_INTERVAL rngZero)
      (List.replicate 18 0)).getD 16 ((0 : Int), false, false) =
      ((-1 : Int), true, false) := by
  decide

set_option maxRecDepth 400000 in
/-- **C3 (amended).** For every generator stream (hence for seed 42): the
run is deterministic (two fresh simulations agree element-wise, claim C1);
the first enemy spawns at tick 0 and no enemy is ever killed; but the run
does not stay breach-free: steps 1-16 return `(0, false, false)` and steps
17 and 18 — ticks 16 and 17 — return `(-1, true, false)`, the first enemy
having reached `CORE_Y_HALF`; the alive count after 18 steps is 1 (the
next spawns are due at ticks 30, 60, 90).  Beyond tick 17 the collision
phase would index grid row 9, out of bounds, so the 100-step run of the
claim cannot complete as specified. -/
theorem s1_run_amended (r : Rng) :
    runOutputs (create_simulation_state DEFAULT_SPAWN_INTERVAL r)
      (List.replicate 18 0) =
      List.replicate 16 ((0 : Int), false, false) ++
        [((-1 : Int), true, false), ((-1 : Int), true, false)] ∧
    (runSteps (create_simulation_state DEFAULT_SPAWN_INTERVAL r)
      (List.replicate 18 0)).enemy_state.enemy_alive.count true = 1 := by
  obtain ⟨hout, hobs⟩ := run_noop_bisim 18
    (create_simulation_state DEFAULT_SPAWN_INTERVAL r)
    (create_simulation_state DEFAULT_SPAWN_INTERVAL rngZero)
    ⟨rfl, rfl, rfl, rfl, rfl, rfl, rfl, rfl⟩
    ⟨fun _ _ => rfl, fun _ _ => rfl⟩ rfl
  constructor
  · rw [hout]
    decide
  · rw [hobs.2.2.1]
    decide

/-! ## Claim C7: compaction -/

/-- The alive slot indices, in original slot order. -/
def aliveIdx (alive : List Bool) : List Nat :=
  (List.range MAX_ENEMIES).filter fun i => alive.getD i false

/-- The dead slot indices, in original slot order. -/
def deadIdx (alive : List Bool) : List Nat :=
  (List.range MAX_ENEMIES).filter fun i => !(alive.getD i false)

lemma compactLE_trans (alive : List Bool) (st : List Nat) :
    ∀ a b c, compactLE alive st a b → compactLE alive st b c →
      compactLE alive st a c := by
  intro a b c hab hbc
  unfold compactLE at *
  omega

lemma compactLE_total (alive : List Bool) (st : List Nat) :
    ∀ a b, compactLE alive st a b ∨ compactLE alive st b a := by
  intro a b
  unfold compactLE
  omega

lemma compactLE_antisymm (alive : List Bool) (st : List Nat) :
    ∀ a b, compactLE alive st a b → compactLE alive st b a → a = b := by
  intro a b hab hba
  unfold compactLE at *
  omega

/-- Under the reachable-state side conditions — every alive `spawn_tick` is
below the dead-slot key `2^32 − 1`, and `spawn_tick` is non-decreasing over
alive slots in slot order — the stable argsort is exactly: alive indices in
original order, then dead indices in original order. -/
lemma sort_indices_eq (alive : List Bool) (st : List Nat)
    (hlt : ∀ i < MAX_ENEMIES, alive.getD i false = true →
      st.getD i 0 < U32_MAX)
    (hmono : ∀ j < MAX_ENEMIES, ∀ i < j, alive.getD i false = true →
      alive.getD j false = true → st.getD i 0 ≤ st.getD j 0) :
    sort_indices alive st = aliveIdx alive ++ deadIdx alive := by
  haveI hT : IsTrans Nat (compactLE alive st) := ⟨compactLE_trans alive st⟩
  haveI hTot : IsTotal Nat (compactLE alive st) := ⟨compactLE_total alive st⟩
  haveI hA : IsAntisymm Nat (compactLE alive st) := ⟨compactLE_antisymm alive st⟩
  apply List.eq_of_perm_of_sorted (r := compactLE alive st)
  · exact (List.perm_insertionSort _ _).trans
      (List.filter_append_perm _ _).symm
  · exact List.sorted_insertionSort _ _
  · rw [List.Sorted, List.pairwise_append]
    refine ⟨?_, ?_, ?_⟩
    · refine List.Pairwise.imp_of_mem ?_
        ((List.pairwise_lt_range MAX_ENEMIES).filter _)
      intro a b ha hb hab
      obtain ⟨han, hap⟩ := List.mem_filter.mp ha
      obtain ⟨hbn, hbp⟩ := List.mem_filter.mp hb
      have hb20 := List.mem_range.mp hbn
      have hle := hmono b hb20 a hab hap hbp
      unfold compactLE sortKey
      rw [if_pos hap, if_pos hbp]
      omega
    · refine List.Pairwise.imp_of_mem ?_
        ((List.pairwise_lt_range MAX_ENEMIES).filter _)
      intro a b ha hb hab
      obtain ⟨han, hap⟩ := List.mem_filter.mp ha
      obtain ⟨hbn, hbp⟩ := List.mem_filter.mp hb
      rw [Bool.not_eq_true'] at hap hbp
      unfold compactLE sortKey
      rw [hap, hbp, if_neg (by simp), if_neg (by simp)]
      omega
    · intro a ha b hb
      obtain ⟨han, hap⟩ := List.mem_filter.mp ha
      obtain ⟨hbn, hbp⟩ := List.mem_filter.mp hb
      rw [Bool.not_eq_true'] at hbp
      have ha20 := List.mem_range.mp han
      have hlta := hlt a ha20 hap
      unfold compactLE sortKey
      rw [if_pos hap, hbp, if_neg (by simp)]
      omega

lemma self_eq_map_getD (l : List α) (d : α) (h : l.length = MAX_ENEMIES) :
    l = (List.range MAX_ENEMIES).map fun i => l.getD i d := by
  apply List.ext_getElem
  · simp [h]
  · intro i h1 h2
    rw [List.getElem_map, List.getElem_range, List.getD_eq_getElem _ _ h1]

lemma count_true_eq_aliveIdx_length (alive : List Bool)
    (h : alive.length = MAX_ENEMIES) :
    alive.count true = (aliveIdx alive).length := by
  unfold aliveIdx
  rw [← List.countP_eq_length_filter]
  conv_lhs => rw [self_eq_map_getD alive false h]
  show List.countP (· == true) _ = _
  rw [List.countP_map]
  apply List.countP_congr
  intro i _
  simp [Function.comp]

lemma mem_aliveIdx_true (alive : List Bool) (i : Nat) (h : i ∈ aliveIdx alive) :
    alive.getD i false = true := (List.mem_filter.mp h).2

lemma mem_deadIdx_false (alive : List Bool) (i : Nat) (h : i ∈ deadIdx alive) :
    alive.getD i false = false := by
  have h2 := (List.mem_filter.mp h).2
  rw [Bool.not_eq_true'] at h2
  exact h2

lemma count_true_map_aliveIdx (alive : List Bool) :
    ((aliveIdx alive).map fun i => alive.getD i false).count true =
      (aliveIdx alive).length := by
  rw [List.count_eq_length.mpr, List.length_map]
  intro b hb
  obtain ⟨i, hi, rfl⟩ := List.mem_map.mp hb
  exact (mem_aliveIdx_true alive i hi).symm

lemma count_true_map_deadIdx (alive : List Bool) :
    ((deadIdx alive).map fun i => alive.getD i false).count true = 0 := by
  rw [List.count_eq_zero]
  intro hmem
  obtain ⟨i, hi, heq⟩ := List.mem_map.mp hmem
  rw [mem_deadIdx_false alive i hi] at heq
  exact Bool.false_ne_true heq

lemma padFrom_take (l : List α) (k : Nat) (z : α) (hk : k ≤ l.length) :
    (padFrom l k z).take k = l.take k := by
  unfold padFrom
  rw [List.take_append_of_le_length (by rw [List.length_take]; omega),
    List.take_take, Nat.min_self]

lemma padFrom_getD (l : List α) (k : Nat) (z : α) (p : Nat)
    (hk : k ≤ l.length) (hp : k ≤ p) : (padFrom l k z).getD p z = z := by
  by_cases h : p < l.length
  · rw [List.getD_eq_getElem _ _ (by rw [padFrom_length]; exact h)]
    unfold padFrom
    rw [List.getElem_append_right (by rw [List.length_take]; omega)]
    exact List.getElem_replicate _ _
  · exact List.getD_eq_default _ _ (by rw [padFrom_length]; omega)

lemma getD_take_of_lt (l : List α) (n p : Nat) (d : α) (hp : p < n)
    (hl : p < l.length) : (l.take n).getD p d = l.getD p d := by
  rw [List.getD_eq_getElem _ _ (by rw [List.length_take]; omega),
    List.getElem_take, List.getD_eq_getElem _ _ hl]

lemma compact_take_fields (e : EnemyState)
    (hidx : sort_indices e.enemy_alive e.enemy_spawn_tick =
      aliveIdx e.enemy_alive ++ deadIdx e.enemy_alive) :
    (compact_enemies e).1 = (aliveIdx e.enemy_alive).length ∧
    (compact_enemies e).2.enemy_y_half.take (compact_enemies e).1 =
      ((aliveIdx e.enemy_alive).map fun i => e.enemy_y_half.getD i 0) ∧
    (compact_enemies e).2.enemy_x.take (compact_enemies e).1 =
      ((aliveIdx e.enemy_alive).map fun i => e.enemy_x.getD i 0) ∧
    (compact_enemies e).2.enemy_alive.take (compact_enemies e).1 =
      ((aliveIdx e.enemy_alive).map fun i => e.enemy_alive.getD i false) ∧
    (compact_enemies e).2.enemy_type.take (compact_enemies e).1 =
      ((aliveIdx e.enemy_alive).map fun i => e.enemy_type.getD i 0) ∧
    (compact_enemies e).2.enemy_spawn_tick.take (compact_enemies e).1 =
      ((aliveIdx e.enemy_alive).map fun i => e.enemy_spawn_tick.getD i 0) := by
  unfold compact_enemies
  dsimp only
  rw [hidx]
  have hcount : (((aliveIdx e.enemy_alive ++ deadIdx e.enemy_alive).map
      fun i => e.enemy_alive.getD i false).count true) =
      (aliveIdx e.enemy_alive).length := by
    rw [List.map_append, List.count_append, count_true_map_aliveIdx,
      count_true_map_deadIdx]
    omega
  rw [hcount]
  refine ⟨rfl, ?_, ?_, ?_, ?_, ?_⟩ <;>
    rw [List.map_append,
      padFrom_take _ _ _
        (by rw [List.length_append, List.length_map, List.length_map]; omega)] <;>
    exact List.take_left' (List.length_map _ _)

lemma compact_getD_suffix (e : EnemyState) (p : Nat)
    (hp : (compact_enemies e).1 ≤ p) :
    (compact_enemies e).2.enemy_alive.getD p false = false ∧
    (compact_enemies e).2.enemy_y_half.getD p 0 = 0 ∧
    (compact_enemies e).2.enemy_x.getD p 0 = 0 ∧
    (compact_enemies e).2.enemy_type.getD p 0 = 0 ∧
    (compact_enemies e).2.enemy_spawn_tick.getD p 0 = 0 := by
  unfold compact_enemies at hp ⊢
  dsimp only at hp ⊢
  have hKle : ((sort_indices e.enemy_alive e.enemy_spawn_tick).map
      (fun i => e.enemy_alive.getD i false)).count true ≤ MAX_ENEMIES := by
    calc ((sort_indices e.enemy_alive e.enemy_spawn_tick).map
        (fun i => e.enemy_alive.getD i false)).count true
        ≤ ((sort_indices e.enemy_alive e.enemy_spawn_tick).map
          (fun i => e.enemy_alive.getD i false)).length :=
          List.count_le_length _ _
      _ = (sort_indices e.enemy_alive e.enemy_spawn_tick).length :=
          List.length_map _ _
      _ = MAX_ENEMIES := sort_indices_length _ _
  refine ⟨?_, ?_, ?_, ?_, ?_⟩ <;>
    exact padFrom_getD _ _ _ _
      (by rw [List.length_map, sort_indices_length]; exact hKle) hp

/-- A concrete enemy state where the alive slots' `spawn_tick`s are out of
order: slot 0 (tick 5) and slot 1 (tick 3) are both alive. -/
def c7Enemies : EnemyState :=
  { enemy_y_half := List.replicate 20 2
    enemy_x := List.replicate 20 1
    enemy_alive := [true, true] ++ List.replicate 18 false
    enemy_type := List.replicate 20 0
    enemy_spawn_tick := [5, 3] ++ List.replicate 18 0 }

/-- **C7 (counterexample).** `compact_enemies` does *not* preserve the
original slot order among alive enemies for arbitrary `spawn_tick` values:
with slots 0 and 1 both alive carrying ticks 5 and 3, compaction places the
tick-3 enemy first — the stable argsort keys on `spawn_tick`, not on the
slot index. -/
theorem compact_order_counterexample :
    c7Enemies.enemy_alive.getD 0 false = true ∧
    c7Enemies.enemy_alive.getD 1 false = true ∧
    c7Enemies.enemy_spawn_tick.getD 0 0 = 5 ∧
    c7Enemies.enemy_spawn_tick.getD 1 0 = 3 ∧
    (compact_enemies c7Enemies).2.enemy_spawn_tick.getD 0 0 = 3 := by
  decide

/-- **C7 (amended).** `compact_enemies` applies the single stable-argsort
permutation (key: `spawn_tick` for alive slots, `2^32 − 1` for dead slots,
ties broken by slot index) to all five arrays and zeroes the trailing
slots.  Provided every alive slot's `spawn_tick` is below `2^32 − 1` and
the alive `spawn_tick`s are non-decreasing in slot order — both true in
every engine-reachable state — the permutation is: alive indices in
original order, then dead indices; afterwards the alive slots form a
contiguous prefix holding the original alive enemies in order, every slot
from the returned count on is field-wise zero with `alive = false`, and
the returned value is the number of alive slots.  For arbitrary
`spawn_tick` values the original order among alive enemies is *not*
preserved (see the counterexample): it is preserved exactly up to the
stable sort by `spawn_tick`. -/
theorem compact_enemies_spec (e : EnemyState) (hw : e.wf)
    (hlt : ∀ i < MAX_ENEMIES, e.enemy_alive.getD i false = true →
      e.enemy_spawn_tick.getD i 0 < U32_MAX)
    (hmono : ∀ j < MAX_ENEMIES, ∀ i < j, e.enemy_alive.getD i false = true →
      e.enemy_alive.getD j false = true →
      e.enemy_spawn_tick.getD i 0 ≤ e.enemy_spawn_tick.getD j 0) :
    (compact_enemies e).1 = e.enemy_alive.count true ∧
    sort_indices e.enemy_alive e.enemy_spawn_tick =
      aliveIdx e.enemy_alive ++ deadIdx e.enemy_alive ∧
    (compact_enemies e).2.enemy_y_half.take (compact_enemies e).1 =
      ((aliveIdx e.enemy_alive).map fun i => e.enemy_y_half.getD i 0) ∧
    (compact_enemies e).2.enemy_x.take (compact_enemies e).1 =
      ((aliveIdx e.enemy_alive).map fun i => e.enemy_x.getD i 0) ∧
    (compact_enemies e).2.enemy_alive.take (compact_enemies e).1 =
      ((aliveIdx e.enemy_alive).map fun i => e.enemy_alive.getD i false) ∧
    (compact_enemies e).2.enemy_type.take (compact_enemies e).1 =
      ((aliveIdx e.enemy_alive).map fun i => e.enemy_type.getD i 0) ∧
    (compact_enemies e).2.enemy_spawn_tick.take (compact_enemies e).1 =
      ((aliveIdx e.enemy_alive).map fun i => e.enemy_spawn_tick.getD i 0) ∧
    (∀ p, p < (compact_enemies e).1 →
      (compact_enemies e).2.enemy_alive.getD p false = true) ∧
    (∀ p, (compact_enemies e).1 ≤ p →
      (compact_enemies e).2.enemy_alive.getD p false = false ∧
      (compact_enemies e).2.enemy_y_half.getD p 0 = 0 ∧
      (compact_enemies e).2.enemy_x.getD p 0 = 0 ∧
      (compact_enemies e).2.enemy_type.getD p 0 = 0 ∧
      (compact_enemies e).2.enemy_spawn_tick.getD p 0 = 0) := by
  have hidx := sort_indices_eq e.enemy_alive e.enemy_spawn_tick hlt hmono
  obtain ⟨hK, htY, htX, htA, htT, htS⟩ := compact_take_fields e hidx
  refine ⟨?_, hidx, htY, htX, htA, htT, htS, ?_, fun p hp => compact_getD_suffix e p hp⟩
  · rw [hK, count_true_eq_aliveIdx_length _ hw.2.2.1]
  · intro p hp
    have hplen : p < (compact_enemies e).2.enemy_alive.length := by
      rw [compact_alive_length]
      have h1 : (aliveIdx e.enemy_alive).length ≤ MAX_ENEMIES := by
        unfold aliveIdx
        calc ((List.range MAX_ENEMIES).filter
            fun i => e.enemy_alive.getD i false).length
            ≤ (List.range MAX_ENEMIES).length := List.length_filter_le _ _
          _ = MAX_ENEMIES := List.length_range _
      omega
    rw [← getD_take_of_lt _ (compact_enemies e).1 p false hp hplen, htA]
    have hpl : p < ((aliveIdx e.enemy_alive).map
        fun i => e.enemy_alive.getD i false).length := by
      rw [List.length_map, ← hK]
      exact hp
    rw [List.getD_eq_getElem _ _ hpl]
    have hmem := List.getElem_mem hpl
    obtain ⟨i, hi, heq⟩ := List.mem_map.mp hmem
    rw [← heq]
    exact mem_aliveIdx_true e.enemy_alive i hi

/-- A concrete enemy state whose alive slots (0 and 2) carry non-decreasing
spawn ticks (3, then 7), as in every engine-reachable state. -/
def c7Ordered : EnemyState :=
  { enemy_y_half := List.replicate 20 4
    enemy_x := List.replicate 20 2
    enemy_alive := [true, false, true] ++ List.replicate 17 false
    enemy_type := List.replicate 20 0
    enemy_spawn_tick := [3, 0, 7] ++ List.replicate 17 0 }

/-- Witness for C7 (amended) at a concrete ordered enemy state. -/
theorem compact_enemies_spec_witness :
    (compact_enemies c7Ordered).1 = c7Ordered.enemy_alive.count true :=
  (compact_enemies_spec c7Ordered (by decide) (by decide) (by decide)).1

end FirewallDefense
